import Mathlib

/-!
Shallow embedding of the `braid_iroh` composition layer (`src/lib.rs`).

Rust `&str` values are modelled as their UTF-8 byte sequences (`List Nat`,
each entry a byte value); equality of Rust string slices is byte equality.
The external `blake3` crate's hash function is an abstract parameter of the
development (it is an external collaborator, not code of this repository),
as are the transport-facing collaborators `BraidIrohNode::spawn` and
`BraidIrohNode::subscribe`, whose modules (`node.rs`, `subscription.rs`) are
not part of the provided source; those are modelled from the specification.
-/

/-- Byte strings: `Vec<u8>` / `&[u8]` / the UTF-8 bytes of a `&str`. -/
abbrev Bytes : Type := List Nat

/-- UTF-8 bytes of the ASCII string literal `"alice"`. -/
def aliceBytes : Bytes := [97, 108, 105, 99, 101]

/-- UTF-8 bytes of the ASCII string literal `"bob"`. -/
def bobBytes : Bytes := [98, 111, 98]

/-- UTF-8 bytes of the ASCII string literal `"/demo-doc"`. -/
def demoDocBytes : Bytes := [47, 100, 101, 109, 111, 45, 100, 111, 99]

/-- Output of `blake3::hash(..).as_bytes()`: a 32-byte digest. -/
structure Digest32 where
  bytes : Bytes
  len32 : bytes.length = 32

/-- Model of `iroh::SecretKey`: an ed25519 secret key; `from_bytes` stores
the given 32 bytes as the key material, so the key is its byte content. -/
structure SecretKey where
  bytes : Bytes
deriving DecidableEq

/-- Model of `iroh::SecretKey::from_bytes(&[u8; 32])`. -/
def SecretKey.from_bytes (d : Digest32) : SecretKey := ⟨d.bytes⟩

/-- The constant `[1u8; 32]` used for the reserved name `"alice"`. -/
def ones32 : Digest32 := ⟨List.replicate 32 1, by simp⟩

/-- The constant `[2u8; 32]` used for the reserved name `"bob"`. -/
def twos32 : Digest32 := ⟨List.replicate 32 2, by simp⟩

/-- Embedding of `get_or_create_secret_key` (src/lib.rs lines 74-84).
Its only effect-free await is the function body itself; the external
`blake3::hash` is passed in as the parameter `blake3`. -/
def get_or_create_secret_key (blake3 : Bytes → Digest32) (name : Bytes) :
    SecretKey :=
  if name = aliceBytes then SecretKey.from_bytes ones32
  else if name = bobBytes then SecretKey.from_bytes twos32
  else SecretKey.from_bytes (blake3 name)

/-- A sequence of calls to `get_or_create_secret_key`, one per listed name,
in invocation order: used to state determinism across repeated calls. -/
def resolve_sequence (blake3 : Bytes → Digest32) (names : List Bytes) :
    List SecretKey :=
  names.map (get_or_create_secret_key blake3)

/-- Model of `DiscoveryConfig` (module `discovery` is not in the provided
source); none of the claims inspect its content, so it is an abstract tag
standing for one concrete discovery policy. -/
structure DiscoveryConfig where
  tag : Nat
deriving DecidableEq

/-- Model of `iroh_gossip::api::GossipReceiver`: an inbound update stream
handle, identified abstractly. -/
structure GossipReceiver where
  stream_id : Nat
deriving DecidableEq

/-- Bootstrap peer addresses supplied at subscribe time (abstract). -/
abbrev PeerAddr : Type := Nat

/-- Abstract payload of an underlying transport-initialization error. -/
abbrev TransportError : Type := Nat

/-- Abstract payload of an underlying transport topic-join error. -/
abbrev JoinError : Type := Nat

/-- UTF-8 bytes of the ASCII string literal `"127.0.0.1"`. -/
def host127 : Bytes := [49, 50, 55, 46, 48, 46, 48, 46, 49]

/-- The placeholder `EndpointId::from_bytes(&[0u8; 32])` used as the proxy
default peer (src/lib.rs line 40). -/
def zeros32 : Bytes := List.replicate 32 0

/-- Model of `crate::node::ProxyConfig` as built in src/lib.rs lines 38-41:
a listen address `127.0.0.1:{proxy_port}` and a placeholder default peer. -/
structure ProxyConfig where
  listen_host : Bytes
  listen_port : Nat
  default_peer : Bytes
deriving DecidableEq

/-- Model of `BraidIrohConfig` as consumed in src/lib.rs lines 46-51. -/
structure BraidIrohConfig where
  discovery : DiscoveryConfig
  secret_key : Option SecretKey
  proxy_config : Option ProxyConfig
deriving DecidableEq

/-- Modelled from the spec: the `NodeHandle` / `BraidIrohNode` state (module
`node.rs` is not in the provided source). Per §3 and §4.4 it holds the
node's identity and the live subscription registry (document path to inbound
stream); the transport session itself stays behind the `Transport`
collaborator below. -/
structure BraidIrohNode where
  secret_key : SecretKey
  subs : List (Bytes × GossipReceiver)
deriving DecidableEq

/-- Modelled from the spec: the external transport collaborator of §6,
specified only at its interface boundary. `init` is the bind/start step that
can fail with `TransportInitFailed`; `joinTopic` is `join_topic(topic_id,
bootstrap_peers)`; `freshKey` is the key generated when no secret key is
configured; `local_peer_address` derives the node's public address from its
identity. A `Transport` value fixes one behavior of the environment. -/
structure Transport where
  init : BraidIrohConfig → Except TransportError Unit
  joinTopic : Bytes → List PeerAddr → Except JoinError GossipReceiver
  freshKey : SecretKey
  local_peer_address : SecretKey → Bytes

/-- Modelled from the spec: `BraidIrohNode::spawn` (§4.4): initializes the
transport collaborator with the configuration, fails if the transport cannot
bind/start, and returns a node handle with an empty subscription registry. -/
def BraidIrohNode.spawn (tr : Transport) (cfg : BraidIrohConfig) :
    Except TransportError BraidIrohNode :=
  match tr.init cfg with
  | .error e => .error e
  | .ok _ => .ok { secret_key := cfg.secret_key.getD tr.freshKey, subs := [] }

/-- Typed error of `subscribe` per §4.2 / §7: `InvalidPath` for an empty
path, `JoinFailed` carrying the underlying transport error. -/
inductive SubscribeError where
  | invalidPath : SubscribeError
  | joinFailed : JoinError → SubscribeError
deriving DecidableEq

/-- Association-list lookup in the subscription registry (path equality). -/
def lookupSub : List (Bytes × GossipReceiver) → Bytes → Option GossipReceiver
  | [], _ => none
  | (p, rx) :: rest, path => if p = path then some rx else lookupSub rest path

/-- Modelled from the spec: `BraidIrohNode::subscribe` (§4.2, module
`subscription.rs` is not in the provided source): validates the path is
non-empty, is idempotent on an already-subscribed path (returns the existing
stream), otherwise asks the transport to join the topic derived from the
path by the deterministic map `topicOf` and records the new subscription.
State passing makes the registry mutation explicit: the updated node is
returned alongside the receiver. -/
def BraidIrohNode.subscribe (tr : Transport) (topicOf : Bytes → Bytes)
    (node : BraidIrohNode) (path : Bytes) (bootstrap_peers : List PeerAddr) :
    Except SubscribeError (GossipReceiver × BraidIrohNode) :=
  if path = [] then .error .invalidPath
  else
    match lookupSub node.subs path with
    | some rx => .ok (rx, node)
    | none =>
      match tr.joinTopic (topicOf path) bootstrap_peers with
      | .error e => .error (.joinFailed e)
      | .ok rx => .ok (rx, { node with subs := (path, rx) :: node.subs })

/-- Model of the `anyhow::Error` values `spawn_node` can return: either the
propagated node-spawn error (the `?` on line 51) or the wrapped subscribe
error from line 62 (`anyhow!("Subscribe failed: ...")`). -/
inductive AnyhowError where
  | nodeSpawn : TransportError → AnyhowError
  | subscribeFailed : SubscribeError → AnyhowError
deriving DecidableEq

/-- Embedding of `BraidIrohState` (src/lib.rs lines 14-18). -/
structure BraidIrohState where
  peer : BraidIrohNode
  node_id : Bytes
  node_name : Bytes
deriving DecidableEq

/-- Embedding of src/lib.rs lines 27-31: the secret key is the override when
given, otherwise `get_or_create_secret_key(name)`. -/
def resolved_secret_key (blake3 : Bytes → Digest32)
    (secret_key_override : Option SecretKey) (name : Bytes) : SecretKey :=
  match secret_key_override with
  | some sk => sk
  | none => get_or_create_secret_key blake3 name

/-- Embedding of src/lib.rs lines 33-44: `proxy_port = port.unwrap_or(8080)`
and, when the `proxy` cargo feature is enabled, a `ProxyConfig` listening on
`127.0.0.1:{proxy_port}`; `None` when the feature is disabled. -/
def proxy_config_of (proxyFeature : Bool) (port : Option Nat) :
    Option ProxyConfig :=
  if proxyFeature then
    some { listen_host := host127, listen_port := port.getD 8080,
           default_peer := zeros32 }
  else none

/-- Embedding of the `BraidIrohConfig` literal built at src/lib.rs lines
46-50: the discovery policy, the resolved secret key, and the
feature-dependent proxy configuration. -/
def spawn_config (blake3 : Bytes → Digest32) (proxyFeature : Bool)
    (name : Bytes) (port : Option Nat)
    (secret_key_override : Option SecretKey) (discovery : DiscoveryConfig) :
    BraidIrohConfig :=
  { discovery := discovery,
    secret_key := some (resolved_secret_key blake3 secret_key_override name),
    proxy_config := proxy_config_of proxyFeature port }

/-- Embedding of `spawn_node` (src/lib.rs lines 20-71). The external
collaborators are explicit parameters: `blake3` (hash crate), `tr` (the
transport behavior behind `BraidIrohNode`), `topicOf` (the path-to-topic
map of the subscription module), and `proxyFeature` (the `proxy` cargo
feature flag of the `#[cfg]` blocks). -/
def spawn_node (blake3 : Bytes → Digest32) (tr : Transport)
    (topicOf : Bytes → Bytes) (proxyFeature : Bool)
    (name : Bytes) (port : Option Nat)
    (secret_key_override : Option SecretKey) (discovery : DiscoveryConfig) :
    Except AnyhowError (BraidIrohState × GossipReceiver) :=
  match BraidIrohNode.spawn tr
      (spawn_config blake3 proxyFeature name port secret_key_override discovery) with
  | .error e => .error (.nodeSpawn e)
  | .ok peer =>
    match BraidIrohNode.subscribe tr topicOf peer demoDocBytes [] with
    | .error e => .error (.subscribeFailed e)
    | .ok (rx, peer2) =>
      .ok ({ peer := peer2,
             node_id := tr.local_peer_address peer2.secret_key,
             node_name := name }, rx)

/-- UTF-8 bytes of the ASCII string literal `"carol"` (a non-reserved name). -/
def carolBytes : Bytes := [99, 97, 114, 111, 108]

/-- UTF-8 bytes of the ASCII string literal `"dave"` (a non-reserved name). -/
def daveBytes : Bytes := [100, 97, 118, 101]

/-- Concrete stand-in for the blake3 hash used to evaluate witnesses: 31
zero bytes followed by the input length modulo 256 (any total function of
the input works here; the claims quantify over the hash). -/
def cBlake3 : Bytes → Digest32 :=
  fun b => ⟨List.replicate 31 0 ++ [b.length % 256], by simp⟩

/-- Concrete receiver handle used by witness evaluations. -/
def cRx : GossipReceiver := ⟨0⟩

/-- Concrete transport behavior in which initialization and every topic
join succeed, the join handing out the receiver `cRx`. -/
def cTransport : Transport :=
  { init := fun _ => .ok ()
    joinTopic := fun _ _ => .ok cRx
    freshKey := ⟨List.replicate 32 0⟩
    local_peer_address := fun sk => sk.bytes }

/-- Concrete transport behavior in which initialization succeeds but every
topic join fails with the underlying error `7`. -/
def cTransportJoinFail : Transport :=
  { init := fun _ => .ok ()
    joinTopic := fun _ _ => .error 7
    freshKey := ⟨List.replicate 32 0⟩
    local_peer_address := fun sk => sk.bytes }

/-- Concrete identity map used as the path-to-topic map in witnesses. -/
def cTopicOf : Bytes → Bytes := fun b => b

/-- Concrete discovery configuration used in witnesses. -/
def cDiscovery : DiscoveryConfig := ⟨0⟩

/-- Concrete 32-byte override key used in witnesses. -/
def k9 : SecretKey := ⟨List.replicate 32 9⟩

/-- C1: for the two reserved names, `get_or_create_secret_key` returns the
hard-coded constant keypairs — `"alice"` maps to the key built from
thirty-two `0x01` bytes and `"bob"` to the key built from thirty-two `0x02`
bytes — for every behavior of the hash collaborator; the function takes no
process state, so no invocation order can influence the result. -/
theorem get_or_create_secret_key_reserved_constants :
    ∀ blake3 : Bytes → Digest32,
      get_or_create_secret_key blake3 aliceBytes = ⟨List.replicate 32 1⟩ ∧
      get_or_create_secret_key blake3 bobBytes = ⟨List.replicate 32 2⟩ := by
  intro blake3
  exact ⟨rfl, rfl⟩

/-- C3: for every name outside the reserved set, the resolved secret key's
material is exactly the 32-byte blake3 digest of the name's UTF-8 bytes,
used directly via `SecretKey::from_bytes`. -/
theorem get_or_create_secret_key_nonreserved_digest
    (blake3 : Bytes → Digest32) (name : Bytes)
    (ha : name ≠ aliceBytes) (hb : name ≠ bobBytes) :
    get_or_create_secret_key blake3 name = SecretKey.from_bytes (blake3 name) := by
  simp [get_or_create_secret_key, ha, hb]

/-- Witness for C3 at the concrete non-reserved name `"carol"`. -/
theorem get_or_create_secret_key_nonreserved_digest_witness :
    get_or_create_secret_key cBlake3 carolBytes = SecretKey.from_bytes (cBlake3 carolBytes) :=
  get_or_create_secret_key_nonreserved_digest cBlake3 carolBytes
    (by decide) (by decide)

/-- C4: identity resolution is deterministic. Over any sequence of calls,
whenever the names at positions `i` and `j` coincide, the resolved keypairs
at those positions are bit-identical: the result depends only on the name
argument (and the fixed hash collaborator), not on invocation order. -/
theorem resolve_sequence_deterministic
    (blake3 : Bytes → Digest32) (names : List Bytes) (i j : Nat)
    (h : names[i]? = names[j]?) :
    (resolve_sequence blake3 names)[i]? = (resolve_sequence blake3 names)[j]? := by
  unfold resolve_sequence
  rw [List.getElem?_map, List.getElem?_map, h]

/-- Witness for C4: in the call sequence `["alice", "bob", "alice"]`, the
first and third calls return the same keypair. -/
theorem resolve_sequence_deterministic_witness :
    (resolve_sequence cBlake3 [aliceBytes, bobBytes, aliceBytes])[0]? =
      (resolve_sequence cBlake3 [aliceBytes, bobBytes, aliceBytes])[2]? :=
  resolve_sequence_deterministic cBlake3 [aliceBytes, bobBytes, aliceBytes]
    0 2 (by decide)

/-- C5: identity resolution is total and effect-free. The embedding's type
records both: it returns a `SecretKey` (no `Option`/`Except` error path)
for every byte-string name — the empty name and arbitrary non-ASCII bytes
included — and it is a pure function of its arguments (the Rust body does
no I/O and no logging). The returned key material is always 32 bytes. -/
theorem get_or_create_secret_key_total :
    ∀ (blake3 : Bytes → Digest32) (name : Bytes),
      (get_or_create_secret_key blake3 name).bytes.length = 32 := by
  intro blake3 name
  unfold get_or_create_secret_key
  split
  · simp [SecretKey.from_bytes, ones32]
  · split
    · simp [SecretKey.from_bytes, twos32]
    · simpa [SecretKey.from_bytes] using (blake3 name).len32

/-- C7: distinct non-reserved names resolve to distinct keypairs, under the
collision-resistance hypothesis that the blake3 digest does not collide on
the two inputs considered. -/
theorem get_or_create_secret_key_distinct
    (blake3 : Bytes → Digest32) (n1 n2 : Bytes)
    (h1a : n1 ≠ aliceBytes) (h1b : n1 ≠ bobBytes)
    (h2a : n2 ≠ aliceBytes) (h2b : n2 ≠ bobBytes)
    (hne : n1 ≠ n2)
    (hcoll : (blake3 n1).bytes = (blake3 n2).bytes → n1 = n2) :
    get_or_create_secret_key blake3 n1 ≠ get_or_create_secret_key blake3 n2 := by
  simp only [get_or_create_secret_key, if_neg h1a, if_neg h1b, if_neg h2a,
    if_neg h2b, SecretKey.from_bytes, ne_eq, SecretKey.mk.injEq]
  intro h
  exact hne (hcoll h)

/-- Witness for C7 at the concrete distinct non-reserved names `"carol"`
and `"dave"` (whose `cBlake3` digests differ). -/
theorem get_or_create_secret_key_distinct_witness :
    get_or_create_secret_key cBlake3 carolBytes ≠ get_or_create_secret_key cBlake3 daveBytes :=
  get_or_create_secret_key_distinct cBlake3 carolBytes daveBytes
    (by decide) (by decide) (by decide) (by decide) (by decide) (by decide)

/-- Closed-form evaluation of `spawn_node` in terms of the two transport
interactions it performs: initialization, then the join for the initial
`"/demo-doc"` subscription of the freshly spawned node. -/
theorem spawn_node_eq (blake3 : Bytes → Digest32) (tr : Transport)
    (topicOf : Bytes → Bytes) (pf : Bool) (name : Bytes) (port : Option Nat)
    (ov : Option SecretKey) (disc : DiscoveryConfig) :
    spawn_node blake3 tr topicOf pf name port ov disc =
      match tr.init (spawn_config blake3 pf name port ov disc) with
      | .error e => .error (.nodeSpawn e)
      | .ok _ =>
        match tr.joinTopic (topicOf demoDocBytes) [] with
        | .error e => .error (.subscribeFailed (.joinFailed e))
        | .ok rx =>
          .ok ({ peer := { secret_key := resolved_secret_key blake3 ov name,
                           subs := [(demoDocBytes, rx)] },
                 node_id :=
                   tr.local_peer_address (resolved_secret_key blake3 ov name),
                 node_name := name }, rx) := by
  unfold spawn_node BraidIrohNode.spawn
  cases tr.init (spawn_config blake3 pf name port ov disc) with
  | error e => rfl
  | ok u =>
    unfold BraidIrohNode.subscribe
    cases tr.joinTopic (topicOf demoDocBytes) [] with
    | error e => rfl
    | ok rx => rfl

/-- Evaluation of the initial subscribe on a freshly spawned node (empty
registry): the path `"/demo-doc"` is non-empty and not yet registered, so
the result is decided by the transport's topic join. -/
theorem subscribe_fresh (tr : Transport) (topicOf : Bytes → Bytes)
    (sk : SecretKey) :
    BraidIrohNode.subscribe tr topicOf { secret_key := sk, subs := [] }
        demoDocBytes [] =
      match tr.joinTopic (topicOf demoDocBytes) [] with
      | .error e => .error (.joinFailed e)
      | .ok rx => .ok (rx, { secret_key := sk, subs := [(demoDocBytes, rx)] }) := by
  unfold BraidIrohNode.subscribe
  cases tr.joinTopic (topicOf demoDocBytes) [] with
  | error e => rfl
  | ok rx => rfl

/-- Helper: whenever `spawn_node` succeeds, the node inside the returned
state carries exactly the secret key resolved at src/lib.rs lines 27-31. -/
theorem spawn_node_ok_secret_key (blake3 : Bytes → Digest32) (tr : Transport)
    (topicOf : Bytes → Bytes) (pf : Bool) (name : Bytes) (port : Option Nat)
    (ov : Option SecretKey) (disc : DiscoveryConfig)
    (st : BraidIrohState) (rx : GossipReceiver)
    (h : spawn_node blake3 tr topicOf pf name port ov disc = .ok (st, rx)) :
    st.peer.secret_key = resolved_secret_key blake3 ov name := by
  rw [spawn_node_eq] at h
  revert h
  cases tr.init (spawn_config blake3 pf name port ov disc) with
  | error e => intro h; exact Except.noConfusion h
  | ok u =>
    cases tr.joinTopic (topicOf demoDocBytes) [] with
    | error e => intro h; exact Except.noConfusion h
    | ok rx0 =>
      intro h
      simp only [Except.ok.injEq, Prod.mk.injEq] at h
      obtain ⟨h1, h2⟩ := h
      subst h1
      rfl

/-- C6: the identity override takes precedence in `spawn_node`. With
`secret_key_override = some sk` the spawned node's secret key is `sk` and
the name-based derivation is never consulted (the result does not depend on
the hash collaborator at all); with `secret_key_override = none` the
spawned node's secret key is exactly `get_or_create_secret_key name`. -/
theorem spawn_node_override_precedence
    (blake3 blake3' : Bytes → Digest32) (tr : Transport)
    (topicOf : Bytes → Bytes) (pf : Bool) (name : Bytes) (port : Option Nat)
    (disc : DiscoveryConfig) (sk : SecretKey) :
    (∀ st rx,
        spawn_node blake3 tr topicOf pf name port (some sk) disc = .ok (st, rx) →
          st.peer.secret_key = sk) ∧
    spawn_node blake3 tr topicOf pf name port (some sk) disc =
      spawn_node blake3' tr topicOf pf name port (some sk) disc ∧
    (∀ st rx,
        spawn_node blake3 tr topicOf pf name port none disc = .ok (st, rx) →
          st.peer.secret_key = get_or_create_secret_key blake3 name) := by
  refine ⟨fun st rx h => ?_, ?_, fun st rx h => ?_⟩
  · exact spawn_node_ok_secret_key blake3 tr topicOf pf name port (some sk)
      disc st rx h
  · rw [spawn_node_eq, spawn_node_eq]
    exact rfl
  · exact spawn_node_ok_secret_key blake3 tr topicOf pf name port none
      disc st rx h

/-- Concrete successful state used by spawn-side witnesses: the result of
spawning `"carol"` with the override key `k9` under `cTransport`. -/
def carolOverrideState : BraidIrohState :=
  { peer := { secret_key := k9, subs := [(demoDocBytes, cRx)] },
    node_id := k9.bytes, node_name := carolBytes }

/-- Witness for C6: a concrete successful `spawn_node` call with an
override key ends up with exactly that key as the node identity. -/
theorem spawn_node_override_precedence_witness :
    carolOverrideState.peer.secret_key = k9 :=
  (spawn_node_override_precedence cBlake3 cBlake3 cTransport cTopicOf false
      carolBytes none cDiscovery k9).1 carolOverrideState cRx rfl

/-- C8: the listen port is optional with the fixed default `8080`. In every
`spawn_node` call the proxy listener configuration (built at src/lib.rs
lines 33-44 and passed inside `spawn_config`) uses port `8080` when `port`
is `None` and `p` when it is `Some p`. -/
theorem spawn_node_listen_port_default :
    (∀ (blake3 : Bytes → Digest32) (pf : Bool) (name : Bytes)
        (port : Option Nat) (ov : Option SecretKey) (disc : DiscoveryConfig),
      (spawn_config blake3 pf name port ov disc).proxy_config =
        proxy_config_of pf port) ∧
    proxy_config_of true none =
      some { listen_host := host127, listen_port := 8080,
             default_peer := zeros32 } ∧
    ∀ p : Nat, proxy_config_of true (some p) =
      some { listen_host := host127, listen_port := p,
             default_peer := zeros32 } := by
  exact ⟨fun _ _ _ _ _ _ => rfl, rfl, fun p => rfl⟩

/-- C9: every successful `spawn_node` call performs the initial
subscription before returning: subscribing the freshly spawned node (the
resolved identity with an empty registry) to the fixed path `"/demo-doc"`
with an empty bootstrap-peer list succeeds, yields exactly the
`GossipReceiver` that `spawn_node` returns, and produces exactly the node
held by the returned state. -/
theorem spawn_node_initial_subscription (blake3 : Bytes → Digest32)
    (tr : Transport) (topicOf : Bytes → Bytes) (pf : Bool) (name : Bytes)
    (port : Option Nat) (ov : Option SecretKey) (disc : DiscoveryConfig)
    (st : BraidIrohState) (rx : GossipReceiver)
    (h : spawn_node blake3 tr topicOf pf name port ov disc = .ok (st, rx)) :
    BraidIrohNode.subscribe tr topicOf
        { secret_key := resolved_secret_key blake3 ov name, subs := [] }
        demoDocBytes [] = .ok (rx, st.peer) := by
  rw [spawn_node_eq] at h
  rw [subscribe_fresh]
  revert h
  cases tr.init (spawn_config blake3 pf name port ov disc) with
  | error e => intro h; exact Except.noConfusion h
  | ok u =>
    cases tr.joinTopic (topicOf demoDocBytes) [] with
    | error e => intro h; exact Except.noConfusion h
    | ok rx0 =>
      intro h
      simp only [Except.ok.injEq, Prod.mk.injEq] at h
      obtain ⟨h1, h2⟩ := h
      subst h1
      subst h2
      rfl

/-- Concrete successful state used by spawn-side witnesses: the result of
spawning `"alice"` with no override under `cTransport`. -/
def aliceState : BraidIrohState :=
  { peer := { secret_key := ⟨List.replicate 32 1⟩,
              subs := [(demoDocBytes, cRx)] },
    node_id := List.replicate 32 1, node_name := aliceBytes }

/-- Witness for C9 at a concrete successful call: spawning `"alice"` under
`cTransport` returns the stream of the `"/demo-doc"` subscription. -/
theorem spawn_node_initial_subscription_witness :
    BraidIrohNode.subscribe cTransport cTopicOf
        { secret_key := resolved_secret_key cBlake3 none aliceBytes, subs := [] }
        demoDocBytes [] = .ok (cRx, aliceState.peer) :=
  spawn_node_initial_subscription cBlake3 cTransport cTopicOf false aliceBytes
    none none cDiscovery aliceState cRx rfl

/-- C10: when the node spawns successfully but the initial subscribe to
`"/demo-doc"` fails, `spawn_node` returns `Err` wrapping the subscribe
error, so no state and no receiver reach the caller. -/
theorem spawn_node_propagates_subscribe_error (blake3 : Bytes → Digest32)
    (tr : Transport) (topicOf : Bytes → Bytes) (pf : Bool) (name : Bytes)
    (port : Option Nat) (ov : Option SecretKey) (disc : DiscoveryConfig)
    (node : BraidIrohNode) (e : SubscribeError)
    (hspawn : BraidIrohNode.spawn tr
        (spawn_config blake3 pf name port ov disc) = .ok node)
    (hsub : BraidIrohNode.subscribe tr topicOf node demoDocBytes [] = .error e) :
    spawn_node blake3 tr topicOf pf name port ov disc =
      .error (.subscribeFailed e) := by
  rw [spawn_node_eq]
  unfold BraidIrohNode.spawn at hspawn
  revert hspawn hsub
  cases tr.init (spawn_config blake3 pf name port ov disc) with
  | error e2 => intro hspawn hsub; exact Except.noConfusion hspawn
  | ok u =>
    intro hspawn hsub
    simp only [Except.ok.injEq] at hspawn
    subst hspawn
    rw [subscribe_fresh] at hsub
    revert hsub
    cases tr.joinTopic (topicOf demoDocBytes) [] with
    | error e2 =>
      intro hsub
      simp only [Except.error.injEq] at hsub
      subst hsub
      rfl
    | ok rx0 => intro hsub; exact Except.noConfusion hsub

/-- Witness for C10 at a concrete input: under `cTransportJoinFail` the
node spawns but the `"/demo-doc"` join fails with the underlying error `7`,
and `spawn_node` surfaces exactly the wrapped subscribe error. -/
theorem spawn_node_propagates_subscribe_error_witness :
    spawn_node cBlake3 cTransportJoinFail cTopicOf false aliceBytes none none
        cDiscovery = .error (.subscribeFailed (.joinFailed 7)) :=
  spawn_node_propagates_subscribe_error cBlake3 cTransportJoinFail cTopicOf
    false aliceBytes none none cDiscovery
    { secret_key := ⟨List.replicate 32 1⟩, subs := [] } (.joinFailed 7)
    rfl rfl

/-- C2 counterexample: a concrete successful `spawn_node` call after which
the returned node's subscription registry is not empty — it already holds
the initial `"/demo-doc"` subscription — refuting the claim that the node
holds no active subscriptions immediately after `spawn_node` returns. -/
theorem spawn_node_registry_not_empty :
    (spawn_node cBlake3 cTransport cTopicOf false aliceBytes none none
        cDiscovery).toOption.map (fun p => p.1.peer.subs) =
      some [(demoDocBytes, cRx)] ∧
    ([(demoDocBytes, cRx)] : List (Bytes × GossipReceiver)) ≠ [] := by
  exact ⟨rfl, by simp⟩

/-- C2 (amended): immediately after `spawn_node` returns `Ok`, the returned
node's subscription registry holds exactly one subscription — the initial
one for `"/demo-doc"`, whose inbound stream is the returned receiver. (The
inner `BraidIrohNode::spawn` does produce a node with an empty registry,
but `spawn_node` subscribes it to `"/demo-doc"` before returning.) -/
theorem spawn_node_registry_after_ok (blake3 : Bytes → Digest32)
    (tr : Transport) (topicOf : Bytes → Bytes) (pf : Bool) (name : Bytes)
    (port : Option Nat) (ov : Option SecretKey) (disc : DiscoveryConfig)
    (st : BraidIrohState) (rx : GossipReceiver)
    (h : spawn_node blake3 tr topicOf pf name port ov disc = .ok (st, rx)) :
    st.peer.subs = [(demoDocBytes, rx)] := by
  rw [spawn_node_eq] at h
  revert h
  cases tr.init (spawn_config blake3 pf name port ov disc) with
  | error e => intro h; exact Except.noConfusion h
  | ok u =>
    cases tr.joinTopic (topicOf demoDocBytes) [] with
    | error e => intro h; exact Except.noConfusion h
    | ok rx0 =>
      intro h
      simp only [Except.ok.injEq, Prod.mk.injEq] at h
      obtain ⟨h1, h2⟩ := h
      subst h1
      subst h2
      rfl

/-- Witness for the amended C2 at a concrete successful call. -/
theorem spawn_node_registry_after_ok_witness :
    aliceState.peer.subs = [(demoDocBytes, cRx)] :=
  spawn_node_registry_after_ok cBlake3 cTransport cTopicOf false aliceBytes
    none none cDiscovery aliceState cRx rfl
